import Mathlib

/-!
Verification development for the Hanwha QCells batch-translation pipeline.

Shallow embedding of the Python sources in `src/`:
- `src/utils.py` (`has_korean`)
- `src/translator.py` (`translate_batch`)
- `src/sheets_manager.py` (`get_next_waiting_task`, `_api_call_with_retry`,
  `start_task` and friends)
- `src/verify.py` (`scan_korean_in_*`, `verify_task`)
- `src/main.py` (`process_task` status step, `prepare_work_files`,
  `prepare_work_files_resume`)
- `src/handlers/docx_handler.py`, `pptx_handler.py`, `xlsx_handler.py`
  (`save_document_with_retry`, the batch collect/translate/rewrite loops)

External effects (network calls, file saves, clock, process kill) are
represented by explicit oracles and event traces; machine-level concerns do
not arise (all Python ints here are small non-negative counters).
-/

namespace QCells

/-- From `src/utils.py`, `has_korean`: `re.search('[가-힣]', text) is not None`.
The character class is the Hangul-syllable block U+AC00 ..= U+D7A3.
The Python guard `isinstance(text, str)` is enforced by typing. -/
def has_korean (text : String) : Bool :=
  text.data.any (fun c => 0xAC00 ≤ c.toNat && c.toNat ≤ 0xD7A3)

/-- The ASCII whitespace stripped by Python `str.strip()` (the texts of this
pipeline contain no exotic Unicode whitespace). -/
def isPySpace (c : Char) : Bool :=
  c = ' ' || c = '\t' || c = '\n' || c = '\r' || c = '\x0b' || c = '\x0c'

/-- Python `str.strip()`: drop whitespace from both ends. -/
def pyStrip (s : String) : String :=
  ⟨((s.data.dropWhile isPySpace).reverse.dropWhile isPySpace).reverse⟩

/-- Whether the character list `s` starts with the character list `pat`. -/
def startsWithL : List Char → List Char → Bool
  | _, [] => true
  | [], _ :: _ => false
  | c :: cs, p :: ps => c = p && startsWithL cs ps

/-- Whether `pat` occurs as a contiguous segment of `s`. -/
def containsSubL : List Char → List Char → Bool
  | [], pat => startsWithL [] pat
  | c :: cs, pat => startsWithL (c :: cs) pat || containsSubL cs pat

/-- Python `pat in s` substring test. -/
def pyContains (s pat : String) : Bool := containsSubL s.data pat.data

/-- Python `s.startswith(pat)`. -/
def pyStartsWith (s pat : String) : Bool := startsWithL s.data pat.data

-- ==========================================================================
-- Translator (src/translator.py)
-- ==========================================================================

/-- Outcome of one remote `generate_content` attempt inside `translate_batch`
(src/translator.py lines 127-182), abstracted at the `json.loads` boundary:
either the response text parses to a JSON list of strings (the success path,
with the usage metadata token counts), or `json.loads` raises
`JSONDecodeError`, or the API call raises some other exception (timeout,
rate limit, network). -/
inductive ApiOutcome where
  | success (parsed : List String) (inTok outTok : Nat)
  | jsonError
  | apiError (msg : String)
deriving Repr, DecidableEq

/-- Whether an attempt outcome is one of the two exception branches of
`translate_batch` (JSON parse failure or API error). -/
def ApiOutcome.isFailure : ApiOutcome → Bool
  | .success _ _ _ => false
  | .jsonError => true
  | .apiError _ => true

/-- The retry loop of `translate_batch` (src/translator.py lines 127-184).
`o attempt` is the outcome of the API call on that attempt (attempts are
numbered from 1 as in `range(1, MAX_RETRIES + 1)` with `MAX_RETRIES = 3`).
On a success outcome the parsed list is returned as-is — the source performs
no length validation.  On a failure, if `attempt < MAX_RETRIES` the loop
retries (the `time.sleep` backoffs are not observable in the return value and
are omitted here), otherwise it returns `(text_list, 0, 0)`.  `fuel` counts
the remaining loop iterations; the `fuel = 0` case is the unreachable
fall-through `return text_list, 0, 0` at line 184. -/
def translateGo (o : Nat → ApiOutcome) (texts : List String) :
    Nat → Nat → List String × Nat × Nat
  | _, 0 => (texts, 0, 0)
  | attempt, fuel + 1 =>
    match o attempt with
    | .success parsed it ot => (parsed, it, ot)
    | .jsonError =>
        if attempt < 3 then translateGo o texts (attempt + 1) fuel
        else (texts, 0, 0)
    | .apiError _ =>
        if attempt < 3 then translateGo o texts (attempt + 1) fuel
        else (texts, 0, 0)

/-- `translate_batch` (src/translator.py lines 93-184): empty input returns
`([], 0, 0)` immediately (line 110-111); otherwise the retry loop runs with
`MAX_RETRIES = 3` attempts.  The function is total: no exception escapes it. -/
def translate_batch (o : Nat → ApiOutcome) (text_list : List String) :
    List String × Nat × Nat :=
  if text_list = [] then ([], 0, 0) else translateGo o text_list 1 3

-- ==========================================================================
-- Sheets manager (src/sheets_manager.py)
-- ==========================================================================

/-- `Status.WAITING` ("대기"), `Status.IN_PROGRESS` ("진행중"),
`Status.COMPLETED` ("완료"), `Status.ERROR` ("오류") and
`Status.REVIEW_1_COMPLETED` ("1차 검수완료") from src/sheets_manager.py
lines 52-59. -/
def statusWaiting : String := "대기"

/-- `Status.IN_PROGRESS`. -/
def statusInProgress : String := "진행중"

/-- `Status.COMPLETED`. -/
def statusCompleted : String := "완료"

/-- `Status.ERROR`. -/
def statusError : String := "오류"

/-- `Status.REVIEW_1_COMPLETED`. -/
def statusReview1Completed : String := "1차 검수완료"

/-- The task dictionary built by `get_next_waiting_task`
(src/sheets_manager.py lines 133-141). -/
structure TaskInfo where
  row_index : Nat
  row_num : String
  upper_path : String
  sub_path : String
  file_name : String
  file_type : String
  status : String
deriving Repr, DecidableEq

/-- `status in processable_statuses` with
`processable_statuses = [Status.WAITING, Status.IN_PROGRESS, Status.ERROR]`
(src/sheets_manager.py line 123). -/
def processable (status : String) : Bool :=
  status = statusWaiting || status = statusInProgress || status = statusError

/-- The per-row guard of `get_next_waiting_task` (lines 128-132):
`len(row) > SheetColumns.STATUS - 1` (that is, `len(row) > 6`) and
`row[6] in processable_statuses`. -/
def rowEligible (row : List String) : Bool :=
  if 6 < row.length then processable (row.getD 6 "") else false

/-- `row[col - 1] if len(row) >= col else ''` — the guarded field accesses of
lines 135-139 (1-based column numbers). -/
def colVal (row : List String) (col : Nat) : String :=
  if col ≤ row.length then row.getD (col - 1) "" else ""

/-- The task dictionary returned at lines 133-141 for a matching row at
(1-based) sheet row `idx`. -/
def mkTask (idx : Nat) (row : List String) : TaskInfo :=
  { row_index := idx
    row_num := colVal row 1
    upper_path := colVal row 2
    sub_path := colVal row 3
    file_name := colVal row 4
    file_type := colVal row 6
    status := row.getD 6 "" }

/-- The scan of `get_next_waiting_task` over the data rows, carrying the
1-based sheet row number (`enumerate(all_values[1:], start=2)`). -/
def nextGo : Nat → List (List String) → Option TaskInfo
  | _, [] => none
  | idx, row :: rest =>
    if rowEligible row then some (mkTask idx row) else nextGo (idx + 1) rest

/-- `get_next_waiting_task` (src/sheets_manager.py lines 104-147) applied to
the snapshot `all_values` returned by `sheet.get_all_values()`: skip the
header row, scan top-to-bottom, return the first row whose status column is
in {WAITING, IN_PROGRESS, ERROR}, else `None`. -/
def get_next_waiting_task (allValues : List (List String)) : Option TaskInfo :=
  nextGo 2 (allValues.drop 1)

/-- Observable events of `_api_call_with_retry`
(src/sheets_manager.py lines 180-214): the `time.sleep(SHEETS_API_MIN_DELAY)`
(0.5 s) before every call, the call itself (with its 0-based attempt index
from `range(SHEETS_API_RETRY_COUNT)`), and the rate-limit backoff sleep of
`SHEETS_API_RETRY_DELAY * (attempt + 1)` seconds. -/
inductive REv where
  | minDelay
  | call (attempt : Nat)
  | backoff (seconds : Nat)
deriving Repr, DecidableEq

/-- `'429' in error_str or 'Quota exceeded' in error_str`
(src/sheets_manager.py line 205). -/
def isRateLimit (e : String) : Bool :=
  pyContains e "429" || pyContains e "Quota exceeded"

/-- Marks `REv.call` events (used to count API attempts in a trace). -/
def REv.isCall : REv → Bool
  | .call _ => true
  | _ => false

/-- The loop of `_api_call_with_retry` with `SHEETS_API_RETRY_COUNT = 3` and
`SHEETS_API_RETRY_DELAY = 5`.  `o attempt` is the result of `func` on the
given 0-based attempt.  On success the value is returned; on a rate-limit
error the loop sleeps `5 * (attempt + 1)` seconds and retries; on any other
error the exception is re-raised immediately (line 211).  When the loop ends
the last exception is re-raised (line 214); `last` carries it. -/
def apiGo (o : Nat → Except String Nat) :
    Nat → Nat → Option String → List REv × Except String Nat
  | _, 0, last => ([], .error (last.getD ""))
  | attempt, fuel + 1, _ =>
    match o attempt with
    | .ok v => ([.minDelay, .call attempt], .ok v)
    | .error e =>
      if isRateLimit e then
        let wait := 5 * (attempt + 1)
        let rest := apiGo o (attempt + 1) fuel (some e)
        ([.minDelay, .call attempt, .backoff wait] ++ rest.1, rest.2)
      else
        ([.minDelay, .call attempt], .error e)

/-- `_api_call_with_retry` (src/sheets_manager.py lines 180-214): the event
trace and the final result (`.ok` value or propagated exception). -/
def apiCallWithRetry (o : Nat → Except String Nat) :
    List REv × Except String Nat :=
  apiGo o 0 3 none

/-- One ledger row's mutable fields relevant to the task state machine. -/
structure LRow where
  status : String
  startTime : Option String
  inputTokens : Nat
  outputTokens : Nat
deriving Repr, DecidableEq

/-- `update_status` (src/sheets_manager.py lines 216-236): write the status
cell (column G). -/
def update_status (r : LRow) (s : String) : LRow := { r with status := s }

/-- `set_start_time` (lines 256-267): write the current time into column H. -/
def set_start_time (r : LRow) (now : String) : LRow :=
  { r with startTime := some now }

/-- `reset_tokens` (lines 342-354): zero columns L and M. -/
def reset_tokens (r : LRow) : LRow :=
  { r with inputTokens := 0, outputTokens := 0 }

/-- `start_task` (src/sheets_manager.py lines 399-414): set status to
IN_PROGRESS, record the start time, reset the token counters. -/
def start_task (r : LRow) (now : String) : LRow :=
  reset_tokens (set_start_time (update_status r statusInProgress) now)

-- ==========================================================================
-- Pipeline driver (src/main.py)
-- ==========================================================================

/-- `is_resume_mode = current_status in ['진행중', '오류']`
(src/main.py line 236). -/
def is_resume_mode (currentStatus : String) : Bool :=
  currentStatus = statusInProgress || currentStatus = statusError

/-- Step 5 of `process_task` (src/main.py lines 266-273): on resume, only
`update_status(row_index, '진행중')` is issued; on a fresh start,
`start_task` is issued (status + start time + token reset). -/
def process_task_enter (r : LRow) (currentStatus : String) (now : String) :
    LRow :=
  if is_resume_mode currentStatus then update_status r statusInProgress
  else start_task r now

/-- A model file system: an association list from path to file content
(later entries are shadowed by earlier ones, as in `fsSet`). -/
abbrev FS : Type := List (String × String)

/-- Look a path up in the model file system. -/
def fsGet : FS → String → Option String
  | [], _ => none
  | (q, c) :: rest, p => if p = q then some c else fsGet rest p

/-- Create or overwrite a file. -/
def fsSet (fs : FS) (p c : String) : FS := (p, c) :: fs

/-- `os.path.exists`. -/
def path_exists (fs : FS) (p : String) : Bool := (fsGet fs p).isSome

/-- `os.remove` (the path is gone afterwards). -/
def fsRemove (fs : FS) (p : String) : FS := fs.filter (fun e => e.1 != p)

/-- `shutil.copy2(src, dst)`: raises (here `.error`) when the source is
missing, otherwise writes the source's content at `dst`. -/
def copy2 (fs : FS) (src dst : String) : Except String FS :=
  match fsGet fs src with
  | some c => .ok (fsSet fs dst c)
  | none => .error "FileNotFoundError"

/-- `os.path.splitext(p)[1]` for the paths this pipeline builds: the final
dot-suffix, or `""` when the name has no dot. -/
def extOf (p : String) : String :=
  match p.splitOn "." with
  | [] => ""
  | [_] => ""
  | parts => "." ++ parts.getLastD ""

/-- `os.path.basename` for the forward-slash paths of the model. -/
def baseName (p : String) : String := (p.splitOn "/").getLastD p

/-- `convert_doc_to_docx(src, dst)` (src/converter.py, called from
src/main.py line 131): reads the legacy file and writes the converted
content at `dst`; `conv` abstracts the office converter. -/
def convert_doc_to_docx (conv : String → String) (fs : FS) (src dst : String) :
    Except String FS :=
  match fsGet fs src with
  | some c => .ok (fsSet fs dst (conv c))
  | none => .error "conversion failed"

/-- `prepare_work_files` (src/main.py lines 93-150).  Mirrors the source:
back up the origin into `completed_original` unless already present, then
either convert a `.doc` through a temporary copy or plainly copy the origin
to `work_file_path`.  Any exception makes the function return `None`
(first component) while the side effects already performed remain in the
returned file system, exactly as on a real disk.  `os.makedirs` is a no-op
in the model. -/
def prepare_work_files (conv : String → String) (fs : FS)
    (origin_path completed_dir completed_original work_file_path : String) :
    Option String × FS :=
  let step1 : Except String FS :=
    if path_exists fs completed_original then .ok fs
    else copy2 fs origin_path completed_original
  match step1 with
  | .error _ => (none, fs)
  | .ok fs1 =>
    let ext := (extOf origin_path).toLower
    if ext = ".doc" then
      let temp_doc_path := completed_dir ++ "/" ++ baseName origin_path
      let step2 : Except String FS :=
        if path_exists fs1 temp_doc_path then .ok fs1
        else copy2 fs1 origin_path temp_doc_path
      match step2 with
      | .error _ => (none, fs1)
      | .ok fs2 =>
        match convert_doc_to_docx conv fs2 temp_doc_path work_file_path with
        | .error _ => (none, fs2)
        | .ok fs3 =>
          let fs4 :=
            if temp_doc_path ≠ completed_original then fsRemove fs3 temp_doc_path
            else fs3
          (some work_file_path, fs4)
    else
      match copy2 fs1 origin_path work_file_path with
      | .error _ => (none, fs1)
      | .ok fs2 => (some work_file_path, fs2)

/-- `prepare_work_files_resume` (src/main.py lines 342-372): if the " - en"
work file already exists it is returned as-is (no copy, no conversion, no
write of any kind); only otherwise is `prepare_work_files` invoked. -/
def prepare_work_files_resume (conv : String → String) (fs : FS)
    (work_file_path origin_path completed_dir completed_original : String) :
    Option String × FS :=
  if path_exists fs work_file_path then (some work_file_path, fs)
  else prepare_work_files conv fs origin_path completed_dir completed_original
    work_file_path

-- ==========================================================================
-- Residue scans and verify pass (src/verify.py)
-- ==========================================================================

/-- A cell value as read back by `openpyxl`/`xlwings`: absent, a string, or a
non-string (number/date), which never passes `isinstance(value, str)`. -/
inductive XCell where
  | empty
  | str (s : String)
  | num (n : Int)
deriving Repr, DecidableEq

/-- The counting guard shared by the three scanners:
`text and has_korean(text.strip())` — a truthy (non-empty) string whose
stripped form contains Hangul. -/
def scanHit : XCell → Bool
  | .str s => s ≠ "" && has_korean (pyStrip s)
  | _ => false

/-- `scan_korean_in_docx` (src/verify.py lines 147-196) on the flattened
sequence of paragraph texts (body, table cells, text boxes).  The whole scan
body is wrapped in `try/except` — the `.error` case is the `except` branch
at lines 188-190, which returns `(False, 0)`. -/
def scan_korean_in_docx (doc : Except String (List XCell)) : Bool × Nat :=
  match doc with
  | .error _ => (false, 0)
  | .ok paras =>
    let cnt := (paras.filter scanHit).length
    (cnt > 0, cnt)

/-- `scan_korean_in_pptx` (src/verify.py lines 199-254) on the flattened
sequence of run texts; the `.error` case is the `except` branch at lines
246-248, returning `(False, 0)`. -/
def scan_korean_in_pptx (prs : Except String (List XCell)) : Bool × Nat :=
  match prs with
  | .error _ => (false, 0)
  | .ok runs =>
    let cnt := (runs.filter scanHit).length
    (cnt > 0, cnt)

/-- `scan_korean_in_xlsx` (src/verify.py lines 257-288) over the workbook's
sheets, rows and cells; the `.error` case is the `except` branch at lines
280-282, returning `(False, 0)`. -/
def scan_korean_in_xlsx (wb : Except String (List (List (List XCell)))) :
    Bool × Nat :=
  match wb with
  | .error _ => (false, 0)
  | .ok sheets =>
    let cnt := ((sheets.flatten.flatten).filter scanHit).length
    (cnt > 0, cnt)

/-- The decision core of `verify_task` (src/verify.py lines 341-468) after
the work-file path has been built.  Inputs: whether the file exists and
passes the integrity check, the residue-scan result `(has_korean_text,
korean_count)` produced by `scan_korean_in_file`, and whether the inner
translation pass succeeds.  Output: the sequence of status values written to
the ledger's status column, and the `(success, result_type)` pair returned.
The missing-file and broken-file branches raise, landing in the `except`
handler (lines 442-468) which writes status COMPLETED back. -/
def verify_task (fileExists integrityOk : Bool) (scanned : Bool × Nat)
    (processOk : Bool) : List String × (Bool × String) :=
  if !fileExists then ([statusCompleted], (false, "error"))
  else if !integrityOk then ([statusCompleted], (false, "error"))
  else if !scanned.1 then ([statusReview1Completed], (true, "no_korean"))
  else if processOk then
    ([statusInProgress, statusReview1Completed], (true, "translated"))
  else ([statusInProgress, statusCompleted], (false, "error"))

-- ==========================================================================
-- DOCX handler (src/handlers/docx_handler.py)
-- ==========================================================================

/-- Outcome of one `doc.save(file_path)` attempt: success, a
`PermissionError` (file locked), or any other exception. -/
inductive SaveOutcome where
  | ok
  | permissionError
  | otherError (msg : String)
deriving Repr, DecidableEq

/-- Observable events of `save_document_with_retry`: the save attempt (with
its 1-based attempt number), the plain `time.sleep(SAVE_RETRY_DELAY)` retry
delay, and the `kill_word_processes()` escalation (which itself waits 2 s,
src/handlers/docx_handler.py lines 26-39). -/
inductive SEv where
  | save (attempt : Nat)
  | sleepRetry
  | kill
deriving Repr, DecidableEq

/-- Marks `SEv.kill` events. -/
def SEv.isKill : SEv → Bool
  | .kill => true
  | _ => false

/-- The loop of `save_document_with_retry`
(src/handlers/docx_handler.py lines 42-81), with `o attempt` the outcome of
the save on that 1-based attempt.  On `PermissionError` with retries left:
escalate with `kill_word_processes()` when `attempt >= 2`, else sleep the
fixed `SAVE_RETRY_DELAY`; with no retries left, raise.  On any other error
with retries left: sleep the same fixed delay (no escalation); with none
left, re-raise.  The `fuel = 0` case is the unreachable `return False` after
the loop (line 81), reached only when `max_retries = 0`. -/
def saveGo (o : Nat → SaveOutcome) (maxRetries : Nat) :
    Nat → Nat → List SEv × Except String Bool
  | _, 0 => ([], .ok false)
  | attempt, fuel + 1 =>
    match o attempt with
    | .ok => ([.save attempt], .ok true)
    | .permissionError =>
      if attempt < maxRetries then
        let ev := if 2 ≤ attempt then [SEv.save attempt, SEv.kill]
          else [SEv.save attempt, SEv.sleepRetry]
        let rest := saveGo o maxRetries (attempt + 1) fuel
        (ev ++ rest.1, rest.2)
      else ([.save attempt], .error "save failed: all retries exhausted")
    | .otherError e =>
      if attempt < maxRetries then
        let rest := saveGo o maxRetries (attempt + 1) fuel
        ([SEv.save attempt, SEv.sleepRetry] ++ rest.1, rest.2)
      else ([.save attempt], .error e)

/-- `save_document_with_retry` with its default `max_retries =
SAVE_MAX_RETRIES = 5`: the event trace and the outcome. -/
def save_document_with_retry (o : Nat → SaveOutcome) (maxRetries : Nat := 5) :
    List SEv × Except String Bool :=
  saveGo o maxRetries 1 maxRetries

/-- State of the paragraph-batching loop shared by `process_docx` and
`process_pptx`: the document (paragraph texts in enumeration order), the
queue of collected paragraph indices, the batches issued so far (texts sent,
translations received), and the token totals. -/
structure DocSt where
  doc : List String
  queue : List Nat
  batches : List (List String × List String)
  inTok : Nat
  outTok : Nat
deriving Repr, DecidableEq

/-- The batch call of `process_docx` (src/handlers/docx_handler.py lines
226-236 and 262-273): re-read `texts = [p.text for p in batch_queue]` from
the current document, call `translate_batch` (abstracted as the oracle `tr`,
indexed by how many batches were issued before), and rewrite the queued
paragraphs only when `len(translated) == len(batch_queue)`; in every case
the queue is cleared afterwards and processing continues. -/
def flushDocxBatch (tr : Nat → List String → List String × Nat × Nat)
    (st : DocSt) : DocSt :=
  let texts := st.queue.map (fun i => st.doc.getD i "")
  let res := tr st.batches.length texts
  let translated := res.1
  let doc :=
    if translated.length = st.queue.length then
      (st.queue.zip translated).foldl (fun d p => d.set p.1 p.2) st.doc
    else st.doc
  { doc := doc, queue := [],
    batches := st.batches ++ [(texts, translated)],
    inTok := st.inTok + res.2.1, outTok := st.outTok + res.2.2 }

/-- One iteration of the paragraph loop of `process_docx` (lines 215-258):
collect the paragraph when its stripped text is non-empty and contains
Hangul, and flush when the queue reaches `BATCH_SIZE_DOCX = 30`. -/
def stepDocxPara (tr : Nat → List String → List String × Nat × Nat)
    (st : DocSt) (p : Nat × String) : DocSt :=
  let text := pyStrip p.2
  if text ≠ "" && has_korean text then
    let st1 : DocSt := { st with queue := st.queue ++ [p.1] }
    if 30 ≤ st1.queue.length then flushDocxBatch tr st1 else st1
  else st

/-- `process_docx` (src/handlers/docx_handler.py lines 189-291) restricted
to its translation effect on the document: iterate the paragraphs in
enumeration order, batch-translate, and flush the trailing partial batch
(lines 261-274).  Writes only ever target already-visited paragraphs, so
enumerating the initial document is equivalent to the source's live
iteration.  Saves and ledger token flushes are external effects that do not
alter the document and are not modelled here. -/
def process_docx (tr : Nat → List String → List String × Nat × Nat)
    (doc : List String) : DocSt :=
  let st := doc.enum.foldl (stepDocxPara tr) ⟨doc, [], [], 0, 0⟩
  if st.queue ≠ [] then flushDocxBatch tr st else st

-- ==========================================================================
-- PPTX handler (src/handlers/pptx_handler.py)
-- ==========================================================================

/-- The batch call of `process_pptx` (src/handlers/pptx_handler.py lines
145-178 and 181-194): identical guard — rewrite only when
`len(translated) == len(batch_queue)`, then clear the queue and continue. -/
def flushPptxBatch (tr : Nat → List String → List String × Nat × Nat)
    (st : DocSt) : DocSt :=
  let texts := st.queue.map (fun i => st.doc.getD i "")
  let res := tr st.batches.length texts
  let translated := res.1
  let doc :=
    if translated.length = st.queue.length then
      (st.queue.zip translated).foldl (fun d p => d.set p.1 p.2) st.doc
    else st.doc
  { doc := doc, queue := [],
    batches := st.batches ++ [(texts, translated)],
    inTok := st.inTok + res.2.1, outTok := st.outTok + res.2.2 }

/-- One iteration of the paragraph loop of `process_pptx` (lines 121-178):
the collection guard is the same as in docx, the batch bound is
`BATCH_SIZE_PPTX = 70`. -/
def stepPptxPara (tr : Nat → List String → List String × Nat × Nat)
    (st : DocSt) (p : Nat × String) : DocSt :=
  let text := pyStrip p.2
  if text ≠ "" && has_korean text then
    let st1 : DocSt := { st with queue := st.queue ++ [p.1] }
    if 70 ≤ st1.queue.length then flushPptxBatch tr st1 else st1
  else st

/-- `process_pptx` (src/handlers/pptx_handler.py lines 95-211) restricted to
its translation effect on the flattened sequence of text-frame paragraphs,
with the trailing flush of lines 181-194. -/
def process_pptx (tr : Nat → List String → List String × Nat × Nat)
    (doc : List String) : DocSt :=
  let st := doc.enum.foldl (stepPptxPara tr) ⟨doc, [], [], 0, 0⟩
  if st.queue ≠ [] then flushPptxBatch tr st else st

-- ==========================================================================
-- XLSX handler (src/handlers/xlsx_handler.py)
-- ==========================================================================

/-- Value of a cell of the normalised 2D grid `all_values` at a coordinate,
`.empty` out of range. -/
def getCell (g : List (List XCell)) (rc : Nat × Nat) : XCell :=
  (g.getD rc.1 []).getD rc.2 .empty

/-- `all_values[r][c] = txt` (src/handlers/xlsx_handler.py line 413). -/
def setCell (g : List (List XCell)) (rc : Nat × Nat) (v : XCell) :
    List (List XCell) :=
  g.set rc.1 ((g.getD rc.1 []).set rc.2 v)

/-- The guarded formula lookup of `process_xlsx` (lines 383-393): the
formula for `(row_idx, col_idx)` read from `all_formulas` with index-bound
checks, `none` when out of range. -/
def fLookup (formulas : List (List (Option String))) (rc : Nat × Nat) :
    Option String :=
  if rc.1 < formulas.length then
    if rc.2 < (formulas.getD rc.1 []).length then
      (formulas.getD rc.1 []).getD rc.2 none
    else none
  else none

/-- The formula-exclusion test of line 395:
`formula and isinstance(formula, str) and formula.startswith('=')`. -/
def isFormulaSkip : Option String → Bool
  | some s => s ≠ "" && pyStartsWith s "="
  | none => false

/-- State of the cell-batching loop of `process_xlsx` for one sheet: the
grid `all_values`, the pending `batch_coords`/`batch_texts`, the batches
issued so far (coordinates sent, translations received), and token totals. -/
structure XSt where
  grid : List (List XCell)
  coords : List (Nat × Nat)
  texts : List String
  batches : List (List (Nat × Nat) × List String)
  inTok : Nat
  outTok : Nat
deriving Repr

/-- The batch call of `process_xlsx` (lines 404-440 and 443-455): call
`translate_batch` (oracle `tr`, indexed by batch count), write the
translations into the in-memory grid only when
`len(translated) == len(batch_coords)`, then clear the pending batch.
The periodic `write_range_safely`/`save_workbook_simple` checkpoint writes
the current grid to the external file without changing it and is therefore
not part of this state. -/
def flushXlsxBatch (tr : Nat → List String → List String × Nat × Nat)
    (st : XSt) : XSt :=
  let res := tr st.batches.length st.texts
  let translated := res.1
  let grid :=
    if translated.length = st.coords.length then
      (st.coords.zip translated).foldl
        (fun g p => setCell g p.1 (.str p.2)) st.grid
    else st.grid
  { grid := grid, coords := [], texts := [],
    batches := st.batches ++ [(st.coords, translated)],
    inTok := st.inTok + res.2.1, outTok := st.outTok + res.2.2 }

/-- One iteration of the cell loop of `process_xlsx` (lines 374-440): skip
formula cells; collect a cell when it holds a truthy string containing
Hangul (`val and isinstance(val, str) and has_korean(val)` — no stripping
here); flush when the batch reaches `BATCH_SIZE_XLSX = 70`. -/
def stepXlsxCell (tr : Nat → List String → List String × Nat × Nat)
    (formulas : List (List (Option String))) (st : XSt)
    (p : (Nat × Nat) × XCell) : XSt :=
  if isFormulaSkip (fLookup formulas p.1) then st
  else
    match p.2 with
    | .str s =>
      if s ≠ "" && has_korean s then
        let st1 : XSt :=
          { st with coords := st.coords ++ [p.1], texts := st.texts ++ [s] }
        if 70 ≤ st1.texts.length then flushXlsxBatch tr st1 else st1
      else st
    | _ => st

/-- Row-major enumeration of the grid with coordinates, matching
`for row_idx, row in enumerate(all_values): for col_idx, val in
enumerate(row)`. -/
def cellStream (g : List (List XCell)) : List ((Nat × Nat) × XCell) :=
  (g.enum.map (fun r => r.2.enum.map (fun c => ((r.1, c.1), c.2)))).flatten

/-- The per-sheet translation loop of `process_xlsx`
(src/handlers/xlsx_handler.py lines 370-455) on the normalised 2D grid
`all_values` and its formula grid: collect/translate/rewrite over the cells
in row-major order, then flush the trailing partial batch (lines 443-455).
In the source, batch write-back only ever touches cells at or before the
current iteration point, so streaming the initial grid is equivalent to the
live iteration. -/
def process_xlsx_sheet (tr : Nat → List String → List String × Nat × Nat)
    (grid : List (List XCell)) (formulas : List (List (Option String))) :
    XSt :=
  let st := (cellStream grid).foldl (stepXlsxCell tr formulas)
    ⟨grid, [], [], [], 0, 0⟩
  if st.texts ≠ [] then flushXlsxBatch tr st else st

-- ==========================================================================
-- Theorems: translator (C1, C4)
-- ==========================================================================

/-- Unfolding equation for `translateGo` at zero fuel. -/
theorem translateGo_zero (o : Nat → ApiOutcome) (texts : List String)
    (attempt : Nat) : translateGo o texts attempt 0 = (texts, 0, 0) := rfl

/-- Unfolding equation for `translateGo` at positive fuel. -/
theorem translateGo_succ (o : Nat → ApiOutcome) (texts : List String)
    (attempt fuel : Nat) :
    translateGo o texts attempt (fuel + 1) =
      match o attempt with
      | .success parsed it ot => (parsed, it, ot)
      | .jsonError =>
          if attempt < 3 then translateGo o texts (attempt + 1) fuel
          else (texts, 0, 0)
      | .apiError _ =>
          if attempt < 3 then translateGo o texts (attempt + 1) fuel
          else (texts, 0, 0) := rfl

/-- Remote oracle for the C1 counterexample: the very first attempt returns a
well-formed response whose parsed list has two elements. -/
def oraC1 : Nat → ApiOutcome := fun _ => .success ["a", "b"] 7 9

/-- C1 counterexample.  On the one-element input `["가"]`, a well-formed
remote response parsing to the two-element list `["a", "b"]` is returned by
`translate_batch` on its success path, mis-sized, on the very first attempt:
it is not treated as a failed attempt, not retried, and there is no fallback
to the original texts. -/
theorem C1_counterexample_mis_sized_success :
    translate_batch oraC1 ["가"] = (["a", "b"], 7, 9) ∧
    ¬ (translate_batch oraC1 ["가"]).1.length = (["가"] : List String).length := by
  constructor
  · rfl
  · decide

/-- C1 (amended): `translate_batch` performs no length validation — whenever
the first attempt's response parses as a JSON list, that list is returned
as-is together with the attempt's token counts, regardless of its length;
retries and the fallback to the original texts happen only when an attempt
raises. -/
theorem C1_amended_no_length_validation (o : Nat → ApiOutcome)
    (texts parsed : List String) (it ot : Nat)
    (hne : texts ≠ []) (h1 : o 1 = .success parsed it ot) :
    translate_batch o texts = (parsed, it, ot) := by
  have hx : translate_batch o texts = translateGo o texts 1 3 := by
    unfold translate_batch
    rw [if_neg hne]
  rw [hx, show (3 : Nat) = 2 + 1 from rfl, translateGo_succ, h1]

/-- Witness for `C1_amended_no_length_validation` at a concrete oracle and
input. -/
theorem C1_amended_no_length_validation_witness :
    translate_batch oraC1 ["가", "나"] = (["a", "b"], 7, 9) :=
  C1_amended_no_length_validation oraC1 ["가", "나"] ["a", "b"] 7 9
    (by decide) rfl

/-- C4: whenever all three attempts of `translate_batch` fail (timeout,
rate-limit or other API error, or an unparseable response), the function
returns the original input list unchanged with zero token counts.  The
embedding is a total function, reflecting that both exception branches are
caught inside the loop and nothing escapes the boundary. -/
theorem C4_exhausted_retries_return_original (o : Nat → ApiOutcome)
    (texts : List String)
    (h1 : (o 1).isFailure = true) (h2 : (o 2).isFailure = true)
    (h3 : (o 3).isFailure = true) :
    translate_batch o texts = (texts, 0, 0) := by
  by_cases he : texts = []
  · subst he
    rfl
  · have hx : translate_batch o texts = translateGo o texts 1 3 := by
      unfold translate_batch
      rw [if_neg he]
    rw [hx, show (3 : Nat) = 2 + 1 from rfl, translateGo_succ]
    have step2 : translateGo o texts 2 2 = (texts, 0, 0) := by
      rw [show (2 : Nat) = 1 + 1 from rfl, translateGo_succ]
      have step3 : translateGo o texts 3 1 = (texts, 0, 0) := by
        rw [show (1 : Nat) = 0 + 1 from rfl, translateGo_succ]
        cases ho : o 3 with
        | success parsed it ot => rw [ho] at h3; simp [ApiOutcome.isFailure] at h3
        | jsonError => simp
        | apiError m => simp
      cases ho : o 2 with
      | success parsed it ot => rw [ho] at h2; simp [ApiOutcome.isFailure] at h2
      | jsonError => simpa using step3
      | apiError m => simpa using step3
    cases ho : o 1 with
    | success parsed it ot => rw [ho] at h1; simp [ApiOutcome.isFailure] at h1
    | jsonError => simpa using step2
    | apiError m => simpa using step2

/-- Oracle for the C4 witness: every attempt fails (a timeout-style API
error, then an unparseable response, then a rate-limit error). -/
def oraC4 : Nat → ApiOutcome := fun n =>
  if n = 1 then .apiError "timeout" else
  if n = 2 then .jsonError else .apiError "429 quota"

/-- Witness for `C4_exhausted_retries_return_original` at a concrete oracle
and input. -/
theorem C4_exhausted_retries_return_original_witness :
    translate_batch oraC4 ["안녕", "세계"] = (["안녕", "세계"], 0, 0) :=
  C4_exhausted_retries_return_original oraC4 ["안녕", "세계"] rfl rfl rfl

-- ==========================================================================
-- Theorems: residue scan failure handling (C2)
-- ==========================================================================

/-- C2 evaluated at the failing input.  When a residue scan raises
internally (the `.error` case: a work file whose container library raises
during the scan), each scanner's `except` branch returns `(False, 0)` — a
clean no-residue result, not a residue-present default — and `verify_task`,
seeing `has_korean_text == False`, promotes the row straight to the reviewed
terminal status `1차 검수완료`.  This contradicts the stated safe-default
requirement, so the scan-failure handling in the code is the bug. -/
theorem C2_scan_failure_reported_clean_and_promoted :
    scan_korean_in_docx (.error "scan raised") = (false, 0) ∧
    scan_korean_in_pptx (.error "scan raised") = (false, 0) ∧
    scan_korean_in_xlsx (.error "scan raised") = (false, 0) ∧
    verify_task true true (scan_korean_in_xlsx (.error "scan raised")) true
      = ([statusReview1Completed], (true, "no_korean")) :=
  ⟨rfl, rfl, rfl, rfl⟩

-- ==========================================================================
-- Theorems: ledger retry policy (C3)
-- ==========================================================================

/-- Unfolding equation for `apiGo` at zero fuel. -/
theorem apiGo_zero (o : Nat → Except String Nat) (attempt : Nat)
    (last : Option String) :
    apiGo o attempt 0 last = ([], .error (last.getD "")) := rfl

/-- Unfolding equation for `apiGo` at positive fuel. -/
theorem apiGo_succ (o : Nat → Except String Nat) (attempt fuel : Nat)
    (last : Option String) :
    apiGo o attempt (fuel + 1) last =
      match o attempt with
      | .ok v => ([.minDelay, .call attempt], .ok v)
      | .error e =>
        if isRateLimit e then
          let wait := 5 * (attempt + 1)
          let rest := apiGo o (attempt + 1) fuel (some e)
          ([.minDelay, .call attempt, .backoff wait] ++ rest.1, rest.2)
        else
          ([.minDelay, .call attempt], .error e) := rfl

/-- Ledger oracle for the C3 counterexample: every call fails with a
rate-limit error. -/
def ora429 : Nat → Except String Nat := fun _ => .error "429 quota"

/-- C3 counterexample.  Under a persistently rate-limited ledger call,
`_api_call_with_retry` (retry ceiling `SHEETS_API_RETRY_COUNT = 3`) executes
exactly 3 call attempts — there is no fourth attempt on which the failure
could propagate; it propagates right after the third.  The full trace shows
the three attempts and the 5 s / 10 s / 15 s backoff sleeps (the last one
spent immediately before propagation). -/
theorem C3_counterexample_three_attempts_not_four :
    (apiCallWithRetry ora429).1 =
      [.minDelay, .call 0, .backoff 5, .minDelay, .call 1, .backoff 10,
        .minDelay, .call 2, .backoff 15] ∧
    (apiCallWithRetry ora429).1.countP (fun ev => REv.isCall ev) = 3 ∧
    ¬ (apiCallWithRetry ora429).1.countP (fun ev => REv.isCall ev) = 4 ∧
    (apiCallWithRetry ora429).2 = .error "429 quota" := by
  refine ⟨rfl, rfl, by decide, rfl⟩

/-- C3 (amended): a ledger call that persistently fails with rate-limit
errors is attempted exactly 3 times; each attempt is preceded by the 0.5 s
minimum delay, each failure is followed by a backoff of `5 * (attempt + 1)`
seconds (5 s, 10 s, 15 s — strictly increasing, the last spent just before
propagation), and the last exception propagates after the third attempt
without a fourth call.  A non-rate-limit error propagates immediately after
the first attempt, with no retry. -/
theorem C3_amended_retry_schedule :
    (∀ (o : Nat → Except String Nat) (e0 e1 e2 : String),
      o 0 = .error e0 → isRateLimit e0 = true →
      o 1 = .error e1 → isRateLimit e1 = true →
      o 2 = .error e2 → isRateLimit e2 = true →
      apiCallWithRetry o =
        ([.minDelay, .call 0, .backoff 5, .minDelay, .call 1, .backoff 10,
          .minDelay, .call 2, .backoff 15], .error e2)) ∧
    (∀ (o : Nat → Except String Nat) (e : String),
      o 0 = .error e → isRateLimit e = false →
      apiCallWithRetry o = ([.minDelay, .call 0], .error e)) := by
  constructor
  · intro o e0 e1 e2 h0 hr0 h1 hr1 h2 hr2
    unfold apiCallWithRetry
    rw [show (3 : Nat) = 2 + 1 from rfl, apiGo_succ, h0]
    simp only [hr0, if_true]
    rw [show (2 : Nat) = 1 + 1 from rfl, apiGo_succ, h1]
    simp only [hr1, if_true]
    rw [show (1 : Nat) = 0 + 1 from rfl, apiGo_succ, h2]
    simp only [hr2, if_true]
    rw [apiGo_zero]
    rfl
  · intro o e h0 hr
    unfold apiCallWithRetry
    rw [show (3 : Nat) = 2 + 1 from rfl, apiGo_succ, h0]
    simp only [hr, Bool.false_eq_true, if_false]

/-- Witness for `C3_amended_retry_schedule`: both conjuncts applied at
concrete oracles. -/
theorem C3_amended_retry_schedule_witness :
    apiCallWithRetry ora429 =
      ([.minDelay, .call 0, .backoff 5, .minDelay, .call 1, .backoff 10,
        .minDelay, .call 2, .backoff 15], .error "429 quota") ∧
    apiCallWithRetry (fun _ => .error "boom") =
      ([.minDelay, .call 0], .error "boom") :=
  ⟨C3_amended_retry_schedule.1 ora429 "429 quota" "429 quota" "429 quota"
      rfl rfl rfl rfl rfl rfl,
    C3_amended_retry_schedule.2 (fun _ => .error "boom") "boom" rfl rfl⟩

-- ==========================================================================
-- Theorems: task state machine entry (C6)
-- ==========================================================================

/-- C6: entering IN_PROGRESS from WAITING (fresh start) goes through
`start_task`, which records the start timestamp and zeroes both token
counters; entering IN_PROGRESS by resume (prior status IN_PROGRESS or ERROR)
issues only the status write, leaving the token counters — and the recorded
start time — untouched. -/
theorem C6_fresh_start_resets_resume_preserves (r : LRow) (now : String) :
    process_task_enter r statusWaiting now =
      { status := statusInProgress, startTime := some now,
        inputTokens := 0, outputTokens := 0 } ∧
    (∀ s, s = statusInProgress ∨ s = statusError →
      process_task_enter r s now = { r with status := statusInProgress }) := by
  constructor
  · rfl
  · rintro s (rfl | rfl) <;> rfl

/-- Witness for `C6_fresh_start_resets_resume_preserves`: a row resumed from
ERROR keeps its accumulated 321/654 token counts and its old start time. -/
theorem C6_fresh_start_resets_resume_preserves_witness :
    process_task_enter ⟨statusError, some "2026-10-01 09:00:00", 321, 654⟩
        statusError "2026-10-12 08:00:00"
      = ⟨statusInProgress, some "2026-10-01 09:00:00", 321, 654⟩ :=
  (C6_fresh_start_resets_resume_preserves
    ⟨statusError, some "2026-10-01 09:00:00", 321, 654⟩
    "2026-10-12 08:00:00").2 statusError (Or.inr rfl)

-- ==========================================================================
-- Theorems: resume reuses the WorkingCopy (C7)
-- ==========================================================================

/-- C7: when the " - en" WorkingCopy already exists,
`prepare_work_files_resume` returns that path with the file system
completely untouched — no copy of the origin, no legacy conversion, no write
to the WorkingCopy; creation from the origin (`prepare_work_files`) runs
exactly when no WorkingCopy exists. -/
theorem C7_resume_reuses_existing_workingcopy (conv : String → String)
    (fs : FS) (work origin dir orig : String) :
    (path_exists fs work = true →
      prepare_work_files_resume conv fs work origin dir orig
        = (some work, fs)) ∧
    (path_exists fs work = false →
      prepare_work_files_resume conv fs work origin dir orig
        = prepare_work_files conv fs origin dir orig work) := by
  constructor
  · intro h
    unfold prepare_work_files_resume
    rw [if_pos h]
  · intro h
    unfold prepare_work_files_resume
    rw [if_neg (by simp [h])]

/-- Witness for `C7_resume_reuses_existing_workingcopy` on a concrete file
system in which the WorkingCopy already holds translated content. -/
theorem C7_resume_reuses_existing_workingcopy_witness :
    path_exists [("MC/sub/report - en.docx", "translated so far"),
        ("MC/sub/report.docx", "원본")] "MC/sub/report - en.docx" = true ∧
    prepare_work_files_resume id
        [("MC/sub/report - en.docx", "translated so far"),
          ("MC/sub/report.docx", "원본")]
        "MC/sub/report - en.docx" "origin/MC/sub/report.docx" "MC/sub"
        "MC/sub/report.docx"
      = (some "MC/sub/report - en.docx",
          [("MC/sub/report - en.docx", "translated so far"),
            ("MC/sub/report.docx", "원본")]) :=
  ⟨rfl,
    (C7_resume_reuses_existing_workingcopy id
      [("MC/sub/report - en.docx", "translated so far"),
        ("MC/sub/report.docx", "원본")]
      "MC/sub/report - en.docx" "origin/MC/sub/report.docx" "MC/sub"
      "MC/sub/report.docx").1 rfl⟩

-- ==========================================================================
-- Theorems: save retry and escalation (C9)
-- ==========================================================================

/-- Unfolding equation for `saveGo` at zero fuel. -/
theorem saveGo_zero (o : Nat → SaveOutcome) (maxRetries attempt : Nat) :
    saveGo o maxRetries attempt 0 = ([], .ok false) := rfl

/-- Unfolding equation for `saveGo` at positive fuel. -/
theorem saveGo_succ (o : Nat → SaveOutcome) (maxRetries attempt fuel : Nat) :
    saveGo o maxRetries attempt (fuel + 1) =
      match o attempt with
      | .ok => ([.save attempt], .ok true)
      | .permissionError =>
        if attempt < maxRetries then
          let ev := if 2 ≤ attempt then [SEv.save attempt, SEv.kill]
            else [SEv.save attempt, SEv.sleepRetry]
          let rest := saveGo o maxRetries (attempt + 1) fuel
          (ev ++ rest.1, rest.2)
        else ([.save attempt], .error "save failed: all retries exhausted")
      | .otherError e =>
        if attempt < maxRetries then
          let rest := saveGo o maxRetries (attempt + 1) fuel
          ([SEv.save attempt, SEv.sleepRetry] ++ rest.1, rest.2)
        else ([.save attempt], .error e) := rfl

/-- A save oracle that hits a file lock on the first two attempts and
succeeds on the third. -/
def oraLockTwice : Nat → SaveOutcome := fun n =>
  if n ≤ 2 then .permissionError else .ok

/-- A save oracle that always fails with a non-lock error. -/
def oraDiskFull : Nat → SaveOutcome := fun _ => .otherError "disk full"

/-- If no attempt ever raises `PermissionError`, no
`kill_word_processes` escalation appears in the trace of the save loop. -/
theorem saveGo_no_kill_of_no_lock (o : Nat → SaveOutcome) (maxRetries : Nat)
    (h : ∀ n, o n ≠ .permissionError) :
    ∀ fuel attempt, SEv.kill ∉ (saveGo o maxRetries attempt fuel).1 := by
  intro fuel
  induction fuel with
  | zero =>
    intro attempt
    rw [saveGo_zero]
    simp
  | succ n ih =>
    intro attempt
    rw [saveGo_succ]
    cases ho : o attempt with
    | ok => simp
    | permissionError => exact absurd ho (h attempt)
    | otherError e =>
      by_cases hlt : attempt < maxRetries
      · simp only [if_pos hlt, List.cons_append, List.nil_append,
          List.mem_cons]
        rintro (h1 | h1 | h1)
        · exact SEv.noConfusion h1
        · exact SEv.noConfusion h1
        · exact ih (attempt + 1) h1
      · simp [if_neg hlt]

/-- C9: a save failing with a lock (`PermissionError`) on attempts 1 and 2
and succeeding on attempt 3 produces exactly one process-termination
escalation, placed after the second failure and before the third attempt,
and the call reports success; a persistently failing non-lock save is
retried with the same fixed delay each time and never escalates; in general
no trace without a lock failure ever contains the escalation. -/
theorem C9_lock_escalation_exactly_once :
    save_document_with_retry oraLockTwice =
      ([.save 1, .sleepRetry, .save 2, .kill, .save 3], .ok true) ∧
    (save_document_with_retry oraLockTwice).1.countP
        (fun ev => SEv.isKill ev) = 1 ∧
    save_document_with_retry oraDiskFull =
      ([.save 1, .sleepRetry, .save 2, .sleepRetry, .save 3, .sleepRetry,
        .save 4, .sleepRetry, .save 5], .error "disk full") ∧
    (∀ (o : Nat → SaveOutcome) (maxRetries : Nat),
      (∀ n, o n ≠ .permissionError) →
      SEv.kill ∉ (save_document_with_retry o maxRetries).1) := by
  refine ⟨rfl, rfl, rfl, ?_⟩
  intro o maxRetries h
  exact saveGo_no_kill_of_no_lock o maxRetries h maxRetries 1

/-- Witness for the hypothesis-bearing conjunct of
`C9_lock_escalation_exactly_once`, at the concrete non-lock oracle. -/
theorem C9_lock_escalation_exactly_once_witness :
    SEv.kill ∉ (save_document_with_retry oraDiskFull).1 :=
  C9_lock_escalation_exactly_once.2.2.2 oraDiskFull 5
    (fun _ h => SaveOutcome.noConfusion h)

-- ==========================================================================
-- Theorems: next-task selection (C5)
-- ==========================================================================

/-- Characterisation of the scan `nextGo`: a returned task is built from the
first eligible row (every earlier row is ineligible) at the correct sheet
row number, and `none` is returned exactly when no row is eligible. -/
theorem nextGo_spec (l : List (List String)) : ∀ idx : Nat,
    (∀ t, nextGo idx l = some t →
      ∃ k, k < l.length ∧ rowEligible (l.getD k []) = true ∧
        (∀ j, j < k → rowEligible (l.getD j []) = false) ∧
        t = mkTask (idx + k) (l.getD k [])) ∧
    (nextGo idx l = none ↔ ∀ row ∈ l, rowEligible row = false) := by
  induction l with
  | nil =>
    intro idx
    constructor
    · intro t ht
      exact Option.noConfusion ht
    · simp [nextGo]
  | cons row rest ih =>
    intro idx
    constructor
    · intro t ht
      by_cases h : rowEligible row = true
      · refine ⟨0, by simp, by simpa using h, ?_, ?_⟩
        · intro j hj
          exact absurd hj (Nat.not_lt_zero j)
        · unfold nextGo at ht
          rw [if_pos h] at ht
          simpa using ht.symm
      · unfold nextGo at ht
        rw [if_neg h] at ht
        obtain ⟨k, hk, helig, hearlier, hmk⟩ := (ih (idx + 1)).1 t ht
        refine ⟨k + 1, by simpa using Nat.succ_lt_succ hk, by simpa using helig,
          ?_, ?_⟩
        · intro j hj
          cases j with
          | zero =>
            simpa using eq_false_of_ne_true h
          | succ j2 =>
            simpa using hearlier j2 (Nat.lt_of_succ_lt_succ hj)
        · rw [hmk]
          have harith : idx + 1 + k = idx + (k + 1) := by omega
          simp [harith]
    · constructor
      · intro hn
        by_cases h : rowEligible row = true
        · unfold nextGo at hn
          rw [if_pos h] at hn
          exact Option.noConfusion hn
        · unfold nextGo at hn
          rw [if_neg h] at hn
          intro r hr
          rcases List.mem_cons.mp hr with hre | hrrest
          · rw [hre]
            exact eq_false_of_ne_true h
          · exact ((ih (idx + 1)).2.mp hn) r hrrest
      · intro hall
        have h : rowEligible row = false := hall row (List.mem_cons_self row rest)
        unfold nextGo
        rw [if_neg (by simp [h])]
        exact (ih (idx + 1)).2.mpr (fun r hr => hall r (List.mem_cons_of_mem row hr))

/-- A `true` result of `rowEligible` yields the three-way status
disjunction of the processable set. -/
theorem rowEligible_status (row : List String)
    (h : rowEligible row = true) :
    (row.getD 6 "" = statusWaiting ∨ row.getD 6 "" = statusInProgress ∨
      row.getD 6 "" = statusError) := by
  unfold rowEligible at h
  by_cases hl : 6 < row.length
  · rw [if_pos hl] at h
    unfold processable at h
    simp only [Bool.or_eq_true, decide_eq_true_eq] at h
    tauto
  · rw [if_neg hl] at h
    exact Bool.noConfusion h

/-- C5: `get_next_waiting_task` returns the first data row (in top-to-bottom
sheet order, header excluded, sheet row numbers starting at 2) whose status
is WAITING ("대기"), IN_PROGRESS ("진행중") or ERROR ("오류"); the returned
task's status is one of those three, hence never COMPLETED ("완료") and
never REVIEW_COMPLETED ("1차 검수완료"); and `None` is returned exactly when
no data row is eligible. -/
theorem C5_first_processable_row_selected (allValues : List (List String)) :
    (∀ t, get_next_waiting_task allValues = some t →
      ∃ k, k < (allValues.drop 1).length ∧
        rowEligible ((allValues.drop 1).getD k []) = true ∧
        (∀ j, j < k → rowEligible ((allValues.drop 1).getD j []) = false) ∧
        t = mkTask (2 + k) ((allValues.drop 1).getD k []) ∧
        t.row_index = 2 + k ∧
        (t.status = statusWaiting ∨ t.status = statusInProgress ∨
          t.status = statusError) ∧
        t.status ≠ statusCompleted ∧ t.status ≠ statusReview1Completed) ∧
    (get_next_waiting_task allValues = none ↔
      ∀ row ∈ allValues.drop 1, rowEligible row = false) := by
  constructor
  · intro t ht
    obtain ⟨k, hk, helig, hearlier, hmk⟩ :=
      (nextGo_spec (allValues.drop 1) 2).1 t ht
    have hstat : t.status = ((allValues.drop 1).getD k []).getD 6 "" := by
      rw [hmk]
      rfl
    have hdisj := rowEligible_status _ helig
    rw [← hstat] at hdisj
    refine ⟨k, hk, helig, hearlier, hmk, by rw [hmk]; rfl, hdisj, ?_, ?_⟩
    · rcases hdisj with h | h | h <;> rw [h] <;> decide
    · rcases hdisj with h | h | h <;> rw [h] <;> decide
  · exact (nextGo_spec (allValues.drop 1) 2).2

/-- A concrete five-row ledger snapshot: header, then rows with statuses
COMPLETED, REVIEW_COMPLETED, ERROR, WAITING. -/
def ledgerW : List (List String) :=
  [["연번", "상위경로", "세부경로", "파일명", "파일용량", "파일유형", "진행상태"],
    ["1", "MC", "10", "a.docx", "10KB", "docx", "완료"],
    ["2", "MC", "10", "b.pptx", "10KB", "pptx", "1차 검수완료"],
    ["3", "MC", "20", "c.xlsx", "10KB", "xlsx", "오류"],
    ["4", "MC", "20", "d.docx", "10KB", "docx", "대기"]]

/-- Witness for `C5_first_processable_row_selected`: on `ledgerW` the
selection skips the COMPLETED and REVIEW_COMPLETED rows and returns the
ERROR row at sheet row 4, whose status is in the processable set. -/
theorem C5_first_processable_row_selected_witness :
    get_next_waiting_task ledgerW
      = some (mkTask 4 ["3", "MC", "20", "c.xlsx", "10KB", "xlsx", "오류"]) ∧
    (mkTask 4 ["3", "MC", "20", "c.xlsx", "10KB", "xlsx", "오류"]).status
        ≠ statusCompleted := by
  refine ⟨rfl, ?_⟩
  obtain ⟨k, hk, helig, hearlier, hmk, hrow, hdisj, hne, hne2⟩ :=
    (C5_first_processable_row_selected ledgerW).1
      (mkTask 4 ["3", "MC", "20", "c.xlsx", "10KB", "xlsx", "오류"]) rfl
  exact hne

-- ==========================================================================
-- Theorems: mismatched batches are never written back (C10)
-- ==========================================================================

/-- A mis-sized translation leaves the docx document untouched at the batch
write-back guard, and the queue is cleared so the loop continues. -/
theorem flushDocxBatch_mismatch (tr : Nat → List String → List String × Nat × Nat)
    (st : DocSt)
    (h : (tr st.batches.length
        (st.queue.map (fun i => st.doc.getD i ""))).1.length
        ≠ st.queue.length) :
    (flushDocxBatch tr st).doc = st.doc ∧ (flushDocxBatch tr st).queue = [] := by
  refine ⟨?_, rfl⟩
  unfold flushDocxBatch
  dsimp only
  rw [if_neg h]

/-- Same statement for the pptx write-back guard. -/
theorem flushPptxBatch_mismatch (tr : Nat → List String → List String × Nat × Nat)
    (st : DocSt)
    (h : (tr st.batches.length
        (st.queue.map (fun i => st.doc.getD i ""))).1.length
        ≠ st.queue.length) :
    (flushPptxBatch tr st).doc = st.doc ∧ (flushPptxBatch tr st).queue = [] := by
  refine ⟨?_, rfl⟩
  unfold flushPptxBatch
  dsimp only
  rw [if_neg h]

/-- Same statement for the xlsx write-back guard (the source compares
against `batch_coords`). -/
theorem flushXlsxBatch_mismatch (tr : Nat → List String → List String × Nat × Nat)
    (st : XSt)
    (h : (tr st.batches.length st.texts).1.length ≠ st.coords.length) :
    (flushXlsxBatch tr st).grid = st.grid ∧ (flushXlsxBatch tr st).coords = []
      ∧ (flushXlsxBatch tr st).texts = [] := by
  refine ⟨?_, rfl, rfl⟩
  unfold flushXlsxBatch
  dsimp only
  rw [if_neg h]

/-- Under a translator whose output length never matches its input length,
the docx flush never changes the document. -/
theorem flushDocxBatch_allmismatch (tr : Nat → List String → List String × Nat × Nat)
    (h : ∀ n ts, (tr n ts).1.length ≠ ts.length) (st : DocSt) :
    (flushDocxBatch tr st).doc = st.doc := by
  have hlen : (tr st.batches.length
      (st.queue.map (fun i => st.doc.getD i ""))).1.length ≠ st.queue.length := by
    have h2 := h st.batches.length (st.queue.map (fun i => st.doc.getD i ""))
    simpa [List.length_map] using h2
  exact (flushDocxBatch_mismatch tr st hlen).1

/-- Under an always-mismatching translator, one docx loop step never changes
the document. -/
theorem stepDocxPara_allmismatch (tr : Nat → List String → List String × Nat × Nat)
    (h : ∀ n ts, (tr n ts).1.length ≠ ts.length) (st : DocSt)
    (p : Nat × String) : (stepDocxPara tr st p).doc = st.doc := by
  unfold stepDocxPara
  dsimp only
  split
  · split
    · exact flushDocxBatch_allmismatch tr h _
    · rfl
  · rfl

/-- Under an always-mismatching translator, the docx paragraph fold never
changes the document. -/
theorem foldl_stepDocxPara_allmismatch
    (tr : Nat → List String → List String × Nat × Nat)
    (h : ∀ n ts, (tr n ts).1.length ≠ ts.length) :
    ∀ (l : List (Nat × String)) (st : DocSt),
      (l.foldl (stepDocxPara tr) st).doc = st.doc := by
  intro l
  induction l with
  | nil => intro st; rfl
  | cons p rest ih =>
    intro st
    rw [List.foldl_cons, ih, stepDocxPara_allmismatch tr h]

/-- Same as `flushDocxBatch_allmismatch`, for pptx. -/
theorem flushPptxBatch_allmismatch (tr : Nat → List String → List String × Nat × Nat)
    (h : ∀ n ts, (tr n ts).1.length ≠ ts.length) (st : DocSt) :
    (flushPptxBatch tr st).doc = st.doc := by
  have hlen : (tr st.batches.length
      (st.queue.map (fun i => st.doc.getD i ""))).1.length ≠ st.queue.length := by
    have h2 := h st.batches.length (st.queue.map (fun i => st.doc.getD i ""))
    simpa [List.length_map] using h2
  exact (flushPptxBatch_mismatch tr st hlen).1

/-- Same as `stepDocxPara_allmismatch`, for pptx. -/
theorem stepPptxPara_allmismatch (tr : Nat → List String → List String × Nat × Nat)
    (h : ∀ n ts, (tr n ts).1.length ≠ ts.length) (st : DocSt)
    (p : Nat × String) : (stepPptxPara tr st p).doc = st.doc := by
  unfold stepPptxPara
  dsimp only
  split
  · split
    · exact flushPptxBatch_allmismatch tr h _
    · rfl
  · rfl

/-- Same as `foldl_stepDocxPara_allmismatch`, for pptx. -/
theorem foldl_stepPptxPara_allmismatch
    (tr : Nat → List String → List String × Nat × Nat)
    (h : ∀ n ts, (tr n ts).1.length ≠ ts.length) :
    ∀ (l : List (Nat × String)) (st : DocSt),
      (l.foldl (stepPptxPara tr) st).doc = st.doc := by
  intro l
  induction l with
  | nil => intro st; rfl
  | cons p rest ih =>
    intro st
    rw [List.foldl_cons, ih, stepPptxPara_allmismatch tr h]

/-- Under an always-mismatching translator, the xlsx flush preserves the
grid, provided texts and coordinates are in lockstep (as the loop keeps
them). -/
theorem flushXlsxBatch_allmismatch (tr : Nat → List String → List String × Nat × Nat)
    (h : ∀ n ts, (tr n ts).1.length ≠ ts.length) (st : XSt)
    (hlen : st.texts.length = st.coords.length) :
    (flushXlsxBatch tr st).grid = st.grid := by
  have hne : (tr st.batches.length st.texts).1.length ≠ st.coords.length := by
    rw [← hlen]
    exact h st.batches.length st.texts
  exact (flushXlsxBatch_mismatch tr st hne).1

/-- The xlsx step preserves both the grid and the texts/coords lockstep
invariant under an always-mismatching translator. -/
theorem stepXlsxCell_allmismatch (tr : Nat → List String → List String × Nat × Nat)
    (formulas : List (List (Option String)))
    (h : ∀ n ts, (tr n ts).1.length ≠ ts.length) (st : XSt)
    (p : (Nat × Nat) × XCell)
    (hinv : st.texts.length = st.coords.length) :
    (stepXlsxCell tr formulas st p).grid = st.grid ∧
      (stepXlsxCell tr formulas st p).texts.length
        = (stepXlsxCell tr formulas st p).coords.length := by
  unfold stepXlsxCell
  by_cases hskip : isFormulaSkip (fLookup formulas p.1) = true
  · rw [if_pos hskip]
    exact ⟨rfl, hinv⟩
  · rw [if_neg hskip]
    cases hp : p.2 with
    | empty => exact ⟨rfl, hinv⟩
    | num n => exact ⟨rfl, hinv⟩
    | str s =>
      dsimp only
      by_cases hks : (decide (s ≠ "") && has_korean s) = true
      · rw [if_pos hks]
        by_cases hb : 70 ≤ (st.texts ++ [s]).length
        · rw [if_pos hb]
          refine ⟨flushXlsxBatch_allmismatch tr h _ ?_, rfl⟩
          simp [hinv]
        · rw [if_neg hb]
          refine ⟨rfl, ?_⟩
          simp [hinv]
      · rw [if_neg hks]
        exact ⟨rfl, hinv⟩

/-- The xlsx cell fold preserves the grid under an always-mismatching
translator. -/
theorem foldl_stepXlsxCell_allmismatch
    (tr : Nat → List String → List String × Nat × Nat)
    (formulas : List (List (Option String)))
    (h : ∀ n ts, (tr n ts).1.length ≠ ts.length) :
    ∀ (l : List ((Nat × Nat) × XCell)) (st : XSt),
      st.texts.length = st.coords.length →
      (l.foldl (stepXlsxCell tr formulas) st).grid = st.grid ∧
        (l.foldl (stepXlsxCell tr formulas) st).texts.length
          = (l.foldl (stepXlsxCell tr formulas) st).coords.length := by
  intro l
  induction l with
  | nil => intro st hinv; exact ⟨rfl, hinv⟩
  | cons p rest ih =>
    intro st hinv
    rw [List.foldl_cons]
    obtain ⟨hg, hl⟩ := stepXlsxCell_allmismatch tr formulas h st p hinv
    obtain ⟨hg2, hl2⟩ := ih (stepXlsxCell tr formulas st p) hl
    exact ⟨hg2.trans hg, hl2⟩

/-- C10: in all three handlers, a batch whose translation list length
differs from the collected batch length is never written back — the
write-back guard leaves every unit's original text in place and clears the
pending batch so processing continues; consequently, under a translator
whose outputs never match in length, each whole process leaves its document
(respectively grid) unchanged. -/
theorem C10_length_guard_protects_documents :
    (∀ (tr : Nat → List String → List String × Nat × Nat) (st : DocSt),
      (tr st.batches.length
          (st.queue.map (fun i => st.doc.getD i ""))).1.length
          ≠ st.queue.length →
      (flushDocxBatch tr st).doc = st.doc ∧ (flushDocxBatch tr st).queue = []) ∧
    (∀ (tr : Nat → List String → List String × Nat × Nat) (st : DocSt),
      (tr st.batches.length
          (st.queue.map (fun i => st.doc.getD i ""))).1.length
          ≠ st.queue.length →
      (flushPptxBatch tr st).doc = st.doc ∧ (flushPptxBatch tr st).queue = []) ∧
    (∀ (tr : Nat → List String → List String × Nat × Nat) (st : XSt),
      (tr st.batches.length st.texts).1.length ≠ st.coords.length →
      (flushXlsxBatch tr st).grid = st.grid ∧
        (flushXlsxBatch tr st).coords = [] ∧ (flushXlsxBatch tr st).texts = []) ∧
    (∀ (tr : Nat → List String → List String × Nat × Nat)
        (doc : List String), (∀ n ts, (tr n ts).1.length ≠ ts.length) →
      (process_docx tr doc).doc = doc) ∧
    (∀ (tr : Nat → List String → List String × Nat × Nat)
        (doc : List String), (∀ n ts, (tr n ts).1.length ≠ ts.length) →
      (process_pptx tr doc).doc = doc) ∧
    (∀ (tr : Nat → List String → List String × Nat × Nat)
        (grid : List (List XCell)) (formulas : List (List (Option String))),
      (∀ n ts, (tr n ts).1.length ≠ ts.length) →
      (process_xlsx_sheet tr grid formulas).grid = grid) := by
  refine ⟨flushDocxBatch_mismatch, flushPptxBatch_mismatch,
    flushXlsxBatch_mismatch, ?_, ?_, ?_⟩
  · intro tr doc h
    unfold process_docx
    dsimp only
    split
    · rw [flushDocxBatch_allmismatch tr h,
        foldl_stepDocxPara_allmismatch tr h]
    · rw [foldl_stepDocxPara_allmismatch tr h]
  · intro tr doc h
    unfold process_pptx
    dsimp only
    split
    · rw [flushPptxBatch_allmismatch tr h,
        foldl_stepPptxPara_allmismatch tr h]
    · rw [foldl_stepPptxPara_allmismatch tr h]
  · intro tr grid formulas h
    obtain ⟨hg, hl⟩ := foldl_stepXlsxCell_allmismatch tr formulas h
      (cellStream grid) ⟨grid, [], [], [], 0, 0⟩ rfl
    unfold process_xlsx_sheet
    dsimp only
    split
    · rw [flushXlsxBatch_allmismatch tr h _ hl]
      exact hg
    · exact hg

/-- A translator oracle that always answers with one element too many. -/
def oraLong : Nat → List String → List String × Nat × Nat :=
  fun _ ts => (ts ++ ["extra"], 11, 13)

/-- Witness for `C10_length_guard_protects_documents`: an always-mis-sized
translator leaves a two-paragraph Korean document byte-for-byte unchanged
through `process_docx`. -/
theorem C10_length_guard_protects_documents_witness :
    (process_docx oraLong ["한글 문장입니다", "second line 한글"]).doc
      = ["한글 문장입니다", "second line 한글"] :=
  C10_length_guard_protects_documents.2.2.2.1 oraLong
    ["한글 문장입니다", "second line 한글"]
    (fun n ts => by simp [oraLong])

-- ==========================================================================
-- Theorems: formula cells are never translated (C8)
-- ==========================================================================

/-- `List.set` at one index does not change `getD` at another. -/
theorem getD_set_ne {α : Type _} (l : List α) (i j : Nat) (v d : α)
    (hij : i ≠ j) : (l.set i v).getD j d = l.getD j d := by
  induction l generalizing i j with
  | nil => rfl
  | cons a t ih =>
    cases i with
    | zero =>
      cases j with
      | zero => exact absurd rfl hij
      | succ j2 => rfl
    | succ i2 =>
      cases j with
      | zero => rfl
      | succ j2 => exact ih i2 j2 (fun hh => hij (by rw [hh]))

/-- `List.set` then `getD` at the same index: the new value in range, the
default out of range. -/
theorem getD_set_self {α : Type _} (l : List α) (i : Nat) (v d : α) :
    (l.set i v).getD i d = if i < l.length then v else d := by
  induction l generalizing i with
  | nil => simp
  | cons a t ih =>
    cases i with
    | zero => simp
    | succ i2 => simpa [Nat.succ_lt_succ_iff] using ih i2

/-- Writing one cell leaves every other cell unchanged. -/
theorem setCell_getCell_ne (g : List (List XCell)) (rcw rc : Nat × Nat)
    (v : XCell) (h : rcw ≠ rc) :
    getCell (setCell g rcw v) rc = getCell g rc := by
  obtain ⟨i1, j1⟩ := rcw
  obtain ⟨i2, j2⟩ := rc
  unfold getCell setCell
  dsimp only
  by_cases h1 : i1 = i2
  · subst h1
    have h2 : j1 ≠ j2 := fun hj => h (by rw [hj])
    rw [getD_set_self]
    by_cases h3 : i1 < g.length
    · rw [if_pos h3, getD_set_ne _ j1 j2 _ _ h2]
    · rw [if_neg h3, List.getD_eq_default _ _ (Nat.le_of_not_lt h3)]
  · rw [getD_set_ne _ i1 i2 _ _ h1]

/-- The batch write-back fold leaves every cell outside the written
coordinates unchanged. -/
theorem writeback_preserves (pairs : List ((Nat × Nat) × String)) :
    ∀ (g : List (List XCell)) (rc : Nat × Nat), (∀ q ∈ pairs, q.1 ≠ rc) →
      getCell (pairs.foldl (fun g p => setCell g p.1 (.str p.2)) g) rc
        = getCell g rc := by
  induction pairs with
  | nil => intro g rc _; rfl
  | cons q rest ih =>
    intro g rc h
    rw [List.foldl_cons,
      ih _ rc (fun q2 hq2 => h q2 (List.mem_cons_of_mem q hq2))]
    exact setCell_getCell_ne g q.1 rc _ (h q (List.mem_cons_self q rest))

/-- A coordinate outside the pending batch is untouched by the xlsx flush,
which also empties the pending coordinates and appends the batch to the
history. -/
theorem flushXlsxBatch_notmem (tr : Nat → List String → List String × Nat × Nat)
    (st : XSt) (rc : Nat × Nat) (hc : rc ∉ st.coords) :
    getCell (flushXlsxBatch tr st).grid rc = getCell st.grid rc ∧
    (flushXlsxBatch tr st).coords = [] ∧
    (flushXlsxBatch tr st).batches
      = st.batches ++ [(st.coords, (tr st.batches.length st.texts).1)] := by
  refine ⟨?_, rfl, rfl⟩
  unfold flushXlsxBatch
  dsimp only
  split
  · apply writeback_preserves
    intro q hq he
    exact hc (he ▸ (List.of_mem_zip hq).1)
  · rfl

/-- One step of the xlsx cell loop preserves the three-part invariant for a
cell whose formula is excluded: it is never among the pending coordinates,
never inside an issued batch, and its grid value is unchanged. -/
theorem stepXlsxCell_preserves_excluded
    (tr : Nat → List String → List String × Nat × Nat)
    (formulas : List (List (Option String))) (rc : Nat × Nat)
    (hsk : isFormulaSkip (fLookup formulas rc) = true)
    (st : XSt) (p : (Nat × Nat) × XCell)
    (hc : rc ∉ st.coords) (hb : ∀ b ∈ st.batches, rc ∉ b.1) :
    rc ∉ (stepXlsxCell tr formulas st p).coords ∧
    (∀ b ∈ (stepXlsxCell tr formulas st p).batches, rc ∉ b.1) ∧
    getCell (stepXlsxCell tr formulas st p).grid rc = getCell st.grid rc := by
  unfold stepXlsxCell
  by_cases hskipP : isFormulaSkip (fLookup formulas p.1) = true
  · rw [if_pos hskipP]
    exact ⟨hc, hb, rfl⟩
  · rw [if_neg hskipP]
    have hne : p.1 ≠ rc := fun he => hskipP (he ▸ hsk)
    cases hp : p.2 with
    | empty => exact ⟨hc, hb, rfl⟩
    | num n => exact ⟨hc, hb, rfl⟩
    | str s =>
      dsimp only
      by_cases hks : (decide (s ≠ "") && has_korean s) = true
      · rw [if_pos hks]
        have hc1 : rc ∉ st.coords ++ [p.1] := by
          intro hmem
          rcases List.mem_append.mp hmem with hm | hm
          · exact hc hm
          · rw [List.mem_singleton] at hm
            exact hne hm.symm
        by_cases hb70 : 70 ≤ (st.texts ++ [s]).length
        · rw [if_pos hb70]
          obtain ⟨hg, hco, hba⟩ := flushXlsxBatch_notmem tr
            (XSt.mk st.grid (st.coords ++ [p.1]) (st.texts ++ [s])
              st.batches st.inTok st.outTok) rc hc1
          refine ⟨?_, ?_, hg⟩
          · rw [hco]
            simp
          · intro b hbmem
            rw [hba] at hbmem
            rcases List.mem_append.mp hbmem with hm | hm
            · exact hb b hm
            · rw [List.mem_singleton] at hm
              rw [hm]
              exact hc1
        · rw [if_neg hb70]
          exact ⟨hc1, hb, rfl⟩
      · rw [if_neg hks]
        exact ⟨hc, hb, rfl⟩

/-- The whole xlsx cell fold preserves the exclusion invariant. -/
theorem foldl_stepXlsxCell_preserves_excluded
    (tr : Nat → List String → List String × Nat × Nat)
    (formulas : List (List (Option String))) (rc : Nat × Nat)
    (hsk : isFormulaSkip (fLookup formulas rc) = true) :
    ∀ (l : List ((Nat × Nat) × XCell)) (st : XSt),
      rc ∉ st.coords → (∀ b ∈ st.batches, rc ∉ b.1) →
      rc ∉ (l.foldl (stepXlsxCell tr formulas) st).coords ∧
      (∀ b ∈ (l.foldl (stepXlsxCell tr formulas) st).batches, rc ∉ b.1) ∧
      getCell (l.foldl (stepXlsxCell tr formulas) st).grid rc
        = getCell st.grid rc := by
  intro l
  induction l with
  | nil => intro st hc hb; exact ⟨hc, hb, rfl⟩
  | cons p rest ih =>
    intro st hc hb
    rw [List.foldl_cons]
    obtain ⟨hc1, hb1, hg1⟩ :=
      stepXlsxCell_preserves_excluded tr formulas rc hsk st p hc hb
    obtain ⟨hc2, hb2, hg2⟩ := ih (stepXlsxCell tr formulas st p) hc1 hb1
    exact ⟨hc2, hb2, hg2.trans hg1⟩

/-- C8: in `process_xlsx`, a cell whose formula representation is a string
starting with `=` is excluded from translation regardless of its displayed
value: its grid value is never rewritten, it never enters the pending batch
coordinates, and it appears in no issued translation batch. -/
theorem C8_formula_cells_excluded
    (tr : Nat → List String → List String × Nat × Nat)
    (grid : List (List XCell)) (formulas : List (List (Option String)))
    (r c : Nat) (f : String)
    (hf : fLookup formulas (r, c) = some f)
    (hs : pyStartsWith f "=" = true) :
    getCell (process_xlsx_sheet tr grid formulas).grid (r, c)
      = getCell grid (r, c) ∧
    (r, c) ∉ (process_xlsx_sheet tr grid formulas).coords ∧
    ∀ b ∈ (process_xlsx_sheet tr grid formulas).batches, (r, c) ∉ b.1 := by
  have hfne : f ≠ "" := by
    intro he
    subst he
    exact Bool.noConfusion hs
  have hsk : isFormulaSkip (fLookup formulas (r, c)) = true := by
    rw [hf]
    unfold isFormulaSkip
    simp [hfne, hs]
  obtain ⟨hc, hb, hg⟩ := foldl_stepXlsxCell_preserves_excluded tr formulas
    (r, c) hsk (cellStream grid) ⟨grid, [], [], [], 0, 0⟩
    (by simp) (by simp)
  unfold process_xlsx_sheet
  dsimp only
  split
  · obtain ⟨hg2, hco2, hba2⟩ := flushXlsxBatch_notmem tr _ (r, c) hc
    refine ⟨hg2.trans hg, by rw [hco2]; simp, ?_⟩
    intro b hbmem
    rw [hba2] at hbmem
    rcases List.mem_append.mp hbmem with hm | hm
    · exact hb b hm
    · rw [List.mem_singleton] at hm
      rw [hm]
      exact hc
  · exact ⟨hg, hc, hb⟩

/-- Concrete grid for the C8 witness: cell (0, 1) displays Korean text but
carries the formula `=A1+1`. -/
def gridW : List (List XCell) :=
  [[XCell.str "안녕", XCell.str "한글값"]]

/-- Formula grid for the C8 witness. -/
def formulasW : List (List (Option String)) :=
  [[some "안녕", some "=A1+1"]]

/-- An echo translator for the C8 witness. -/
def oraEcho : Nat → List String → List String × Nat × Nat :=
  fun _ ts => (ts, 1, 1)

/-- Witness for `C8_formula_cells_excluded` on the concrete grid: the
formula cell keeps its value and is in no batch. -/
theorem C8_formula_cells_excluded_witness :
    getCell (process_xlsx_sheet oraEcho gridW formulasW).grid (0, 1)
      = XCell.str "한글값" ∧
    ∀ b ∈ (process_xlsx_sheet oraEcho gridW formulasW).batches,
      (0, 1) ∉ b.1 := by
  obtain ⟨hg, hc, hb⟩ :=
    C8_formula_cells_excluded oraEcho gridW formulasW 0 1 "=A1+1" rfl rfl
  exact ⟨hg.trans rfl, hb⟩

end QCells
